import Mathlib

/-!
Verification of the ASTHRA backend (src/backend/app.py).

We give a shallow embedding of the pieces of the backend with real
conditional logic: the plan normalizer `_normalize_plan`, the static
fallback plan `_fallback_plan`, the AI plan fetcher `_call_ai_plan`,
and the `/chat` handler orchestration.  JSON values passed around the
Python code are modelled by the inductive type `JValue`; Python
exceptions are modelled by `Except PyErr`; Python truthiness, `dict.get`,
iteration, `str()` and `.strip()` are each given a faithful model.
-/

namespace Asthra

/-- JSON-like Python values (the values `json.loads` can produce, plus the
values the backend passes around).  Numbers are modelled as integers; no
claim depends on float behaviour. -/
inductive JValue where
  | null
  | bool (b : Bool)
  | num (n : Int)
  | str (s : String)
  | arr (xs : List JValue)
  | obj (fields : List (String × JValue))

/-- Python exceptions that the embedded code can raise. -/
inductive PyErr where
  | attributeError (msg : String)
  | typeError (msg : String)
deriving DecidableEq

/-- Python type name of a value, used in exception messages. -/
def pyTypeName : JValue → String
  | .null => "NoneType"
  | .bool _ => "bool"
  | .num _ => "int"
  | .str _ => "str"
  | .arr _ => "list"
  | .obj _ => "dict"

/-- AttributeError raised when an attribute is missing on a value. -/
def pyErrNoAttr (v : JValue) (attr : String) : PyErr :=
  .attributeError (pyTypeName v ++ " object has no attribute " ++ attr)

/-- Python truthiness (`bool(x)`) of a JSON value. -/
def pyTruthy : JValue → Bool
  | .null => false
  | .bool b => b
  | .num n => n != 0
  | .str s => s != ""
  | .arr xs => !xs.isEmpty
  | .obj fs => !fs.isEmpty

/-- Lookup in a Python dict (JSON objects have unique string keys). -/
def dictGet (fields : List (String × JValue)) (k : String) : Option JValue :=
  (fields.find? (fun p => p.fst == k)).map Prod.snd

/-- Model of Python `x or d` applied to the result of `dict.get(k)`:
the value if the key is present and truthy, else the default. -/
def pyOr (v : Option JValue) (d : JValue) : JValue :=
  match v with
  | some x => if pyTruthy x then x else d
  | none => d

/-- Model of Python iteration `for x in v`: lists yield their elements,
strings yield their one-character substrings, dicts yield their keys, and
every other value raises TypeError. -/
def pyIter : JValue → Except PyErr (List JValue)
  | .arr xs => .ok xs
  | .str s => .ok (s.toList.map (fun c => .str (String.singleton c)))
  | .obj fs => .ok (fs.map (fun p => .str p.fst))
  | v => .error (.typeError (pyTypeName v ++ " object is not iterable"))

mutual

/-- Python `repr(x)` of a JSON value (approximate for containers; the
proofs only rely on container reprs being non-blank, which holds because
they start with a bracket). -/
def pyRepr : JValue → String
  | .null => "None"
  | .bool true => "True"
  | .bool false => "False"
  | .num n => toString n
  | .str s => "\x27" ++ s ++ "\x27"
  | .arr xs => "[" ++ pyReprList xs ++ "]"
  | .obj fs => "\x7b" ++ pyReprFields fs ++ "\x7d"

/-- Comma-separated reprs of the elements of a list. -/
def pyReprList : List JValue → String
  | [] => ""
  | [x] => pyRepr x
  | x :: xs => pyRepr x ++ ", " ++ pyReprList xs

/-- Comma-separated reprs of the entries of a dict. -/
def pyReprFields : List (String × JValue) → String
  | [] => ""
  | [(k, v)] => "\x27" ++ k ++ "\x27: " ++ pyRepr v
  | (k, v) :: fs => "\x27" ++ k ++ "\x27: " ++ pyRepr v ++ ", " ++ pyReprFields fs

end

/-- Python `str(x)`: the string itself for strings, `repr` otherwise
(this agrees with Python on None, booleans, ints, lists and dicts). -/
def pyStr (v : JValue) : String :=
  match v with
  | .str s => s
  | _ => pyRepr v

example : pyStr (.num 7) = "7" := rfl
example : pyStr .null = "None" := rfl
example : pyTruthy (.obj []) = false := rfl

/-! ## The plan data model and the normalizer -/

/-- A section of a normalized plan: the dict `\x7b"heading": ..., "bullets": ...\x7d`
built by `_normalize_plan` (and by `_fallback_plan`).  The heading can be any
truthy JSON value (the code never coerces it); bullets are JSON values (in
practice strings, except that the synthesized Overview bullet is the resolved
summary, which can be any truthy value). -/
structure NSection where
  heading : JValue
  bullets : List JValue

/-- A normalized plan: the five-key dict returned by `_normalize_plan`
(and produced by `_fallback_plan`). -/
structure NPlan where
  title : JValue
  summary : JValue
  sections : List NSection
  claims : List JValue
  certificate_note : JValue

/-- Characters removed by Python `str.strip()`: leading and trailing
whitespace. -/
def stripChars (cs : List Char) : List Char :=
  ((cs.dropWhile Char.isWhitespace).reverse.dropWhile Char.isWhitespace).reverse

/-- Model of Python `s.strip()`: drop leading and trailing whitespace. -/
def pyStrip (s : String) : String :=
  String.mk (stripChars s.data)

/-- Model of the list comprehension
`[b.strip() for b in it if str(b).strip()]` used for both bullets and
claims: elements whose `str()` is blank are skipped; a surviving
non-string element raises AttributeError at `.strip()` (Python evaluates
the condition first, then the expression, element by element). -/
def cleanList : List JValue → Except PyErr (List JValue)
  | [] => .ok []
  | b :: rest =>
    if pyStrip (pyStr b) == "" then
      cleanList rest
    else
      match b with
      | .str s =>
        match cleanList rest with
        | .error e => .error e
        | .ok tl => .ok (.str (pyStrip s) :: tl)
      | _ => .error (pyErrNoAttr b "strip")

/-- Model of the `for section in plan.get("sections", [])` loop of
`_normalize_plan`: each iterated item must support `.get` (else
AttributeError); `heading` defaults to "Section" when falsy; bullets are
cleaned by `cleanList` and default to `["Details pending."]` when the
cleaned list is empty.  Every iterated section is appended. -/
def processSections : List JValue → Except PyErr (List NSection)
  | [] => .ok []
  | sec :: rest =>
    match sec with
    | .obj sfs =>
      let heading := pyOr (dictGet sfs "heading") (.str "Section")
      match pyIter ((dictGet sfs "bullets").getD (.arr [])) with
      | .error e => .error e
      | .ok bitems =>
        match cleanList bitems with
        | .error e => .error e
        | .ok bs =>
          let bullets := if bs.isEmpty then [JValue.str "Details pending."] else bs
          match processSections rest with
          | .error e => .error e
          | .ok tl => .ok (⟨heading, bullets⟩ :: tl)
    | _ => .error (pyErrNoAttr sec "get")

/-- Embedding of `_normalize_plan(plan, fallback_message)` from
src/backend/app.py.  A non-dict input (None included) raises
AttributeError at the first `plan.get`, exactly as in Python; otherwise
the five fields are resolved in source order with Python `or` defaulting,
the sections loop, the Overview synthesis, the claims cleaning, and the
certificate note default. -/
def normalize_plan (plan : JValue) (fallback_message : String) : Except PyErr NPlan :=
  match plan with
  | .obj fs =>
    let title := pyOr (dictGet fs "title") (.str "ASTHRA Project Documentation")
    let summary := pyOr (dictGet fs "summary")
      (.str ("Generated documentation for: " ++ fallback_message))
    match pyIter ((dictGet fs "sections").getD (.arr [])) with
    | .error e => .error e
    | .ok secItems =>
      match processSections secItems with
      | .error e => .error e
      | .ok secs =>
        let sections := if secs.isEmpty then [⟨.str "Overview", [summary]⟩] else secs
        match pyIter ((dictGet fs "claims").getD (.arr [])) with
        | .error e => .error e
        | .ok citems =>
          match cleanList citems with
          | .error e => .error e
          | .ok cl =>
            let claims := if cl.isEmpty then
              [JValue.str "Automated documentation generation based on user input."]
            else cl
            let certificate_note := pyOr (dictGet fs "certificate_note")
              (.str "Generated via ASTHRA.")
            .ok ⟨title, summary, sections, claims, certificate_note⟩
  | _ => .error (pyErrNoAttr plan "get")

/-- Embedding of `_fallback_plan(message, file)`: the static plan dict.
Only the filename of an upload is used by the source, so the upload is
modelled as an optional filename. -/
def fallback_plan (message : String) (filename : Option String) : NPlan :=
  let file_note := match filename with
    | some f => "Uploaded file: " ++ f
    | none => "No upload provided."
  ⟨.str "ASTHRA Project Documentation",
   .str ("Generated documentation for: " ++ message),
   [⟨.str "Overview",
     [.str "Project statement received and logged.",
      .str "ASTHRA generated offline demo content.",
      .str file_note]⟩,
    ⟨.str "Objectives",
     [.str "Demonstrate PDF, PPT, patent draft, and certificates.",
      .str "Content is sample-only when AI is disabled."]⟩,
    ⟨.str "Next Steps",
     [.str "Enable AI (set OPENAI_API_KEY) for richer drafts.",
      .str "Refine requirements and rerun generation."]⟩],
   [.str "A system that generates multiple documentation artifacts from one input.",
    .str "Automated slide and patent-style drafting based on project descriptions."],
   .str "Demo certificate generated in offline mode."⟩

/-! ## Invariants and well-formedness predicates -/

/-- The DocumentationPlan invariants of the spec, read with Python
non-emptiness (truthiness): truthy title, summary and certificate note,
at least one section, at least one bullet per section, at least one
claim. -/
def planInvariant (p : NPlan) : Bool :=
  pyTruthy p.title && pyTruthy p.summary &&
  !p.sections.isEmpty && p.sections.all (fun s => !s.bullets.isEmpty) &&
  !p.claims.isEmpty && pyTruthy p.certificate_note

/-- A JSON value that is a string. -/
def jIsStr : JValue → Bool
  | .str _ => true
  | _ => false

/-- A JSON value that is a list of strings. -/
def strListOk : JValue → Bool
  | .arr xs => xs.all jIsStr
  | _ => false

/-- A section entry on which the normalizer cannot raise: a dict whose
`bullets` value, when present, is a list of strings. -/
def sectionShapely : JValue → Bool
  | .obj sfs =>
    match dictGet sfs "bullets" with
    | none => true
    | some v => strListOk v
  | _ => false

/-- An input on which the normalizer cannot raise: a dict whose
`sections` value, when present, is a list of shapely section dicts, and
whose `claims` value, when present, is a list of strings.  The other
fields may hold arbitrary values. -/
def planShapely : JValue → Bool
  | .obj fs =>
    (match dictGet fs "sections" with
     | none => true
     | some (.arr ss) => ss.all sectionShapely
     | some _ => false) &&
    (match dictGet fs "claims" with
     | none => true
     | some v => strListOk v)
  | _ => false

/-- Serialization of a normalized section back to the JSON dict the
Python code builds for it. -/
def sectionToJValue (s : NSection) : JValue :=
  .obj [("heading", s.heading), ("bullets", .arr s.bullets)]

/-- Serialization of a normalized plan back to the five-key JSON dict the
Python code builds for it. -/
def planToJValue (p : NPlan) : JValue :=
  .obj [("title", p.title), ("summary", p.summary),
        ("sections", .arr (p.sections.map sectionToJValue)),
        ("claims", .arr p.claims),
        ("certificate_note", p.certificate_note)]

/-- A bullet or claim entry that the cleaning pass maps to itself: a
non-empty string with no surrounding whitespace. -/
def trimmedStr : JValue → Bool
  | .str s => pyStrip s == s && s != ""
  | _ => false

/-- A plan that the normalizer maps to itself: truthy title, summary,
certificate note and headings, non-empty sections, bullets and claims,
with every bullet and claim a trimmed non-empty string. -/
def planCanonical (p : NPlan) : Bool :=
  pyTruthy p.title && pyTruthy p.summary && pyTruthy p.certificate_note &&
  !p.sections.isEmpty &&
  p.sections.all (fun s =>
    pyTruthy s.heading && !s.bullets.isEmpty && s.bullets.all trimmedStr) &&
  !p.claims.isEmpty && p.claims.all trimmedStr

example : normalize_plan (.obj []) "m" =
    .ok ⟨.str "ASTHRA Project Documentation",
         .str "Generated documentation for: m",
         [⟨.str "Overview", [.str "Generated documentation for: m"]⟩],
         [.str "Automated documentation generation based on user input."],
         .str "Generated via ASTHRA."⟩ := rfl

example : normalize_plan .null "m" = .error (pyErrNoAttr .null "get") := rfl

example : normalize_plan
    (.obj [("sections", .arr [.obj [("heading", .str "H"),
                                    ("bullets", .arr [.str "  "])]])]) "m"
    = .ok ⟨.str "ASTHRA Project Documentation",
           .str "Generated documentation for: m",
           [⟨.str "H", [.str "Details pending."]⟩],
           [.str "Automated documentation generation based on user input."],
           .str "Generated via ASTHRA."⟩ := rfl

example : normalize_plan
    (.obj [("sections", .arr [.obj [("bullets", .arr [.num 7])]])]) "m"
    = .error (pyErrNoAttr (.num 7) "strip") := rfl

/-! ## The AI plan fetcher -/

/-- The process-wide provider state set once by `_init_ai_provider`:
the enabled flag, the provider name, the model name, the status message,
and whether the `client` and `bedrock_client` globals are non-None. -/
structure AIState where
  enabled : Bool
  provider : String
  model : String
  status_msg : String
  hasClient : Bool
  hasBedrockClient : Bool

/-- Outcome of the external provider interaction inside the `try` block
of `_call_ai_plan`: either the provider call, the response extraction and
`json.loads` all succeed and produce a JSON value, or some step raises an
exception (network error, non-2xx response, missing SDK, malformed JSON)
whose `str()` is the given message. -/
inductive FetchOutcome where
  | parsed (v : JValue)
  | raised (msg : String)

/-- Whether the enabled-state dispatch of `_call_ai_plan` reaches a
provider branch (and hence consults the provider) rather than falling
through to the unsupported-provider return. -/
def providerDispatch (st : AIState) : Bool :=
  ((st.provider == "openai" || st.provider == "azure") && st.hasClient) ||
  st.provider == "gemini" ||
  (st.provider == "bedrock" && st.hasBedrockClient)

/-- Embedding of `_call_ai_plan(message)`: returns the `(plan, error)`
pair together with a flag recording whether a provider branch was
entered (the network call attempt).  If the registry is disabled the
status message is returned immediately; otherwise the dispatch mirrors
the source: openai/azure with a client, gemini, bedrock with a client,
and a fallthrough error string.  Every exception inside the try block is
caught and stringified, so the function is total. -/
def call_ai_plan (st : AIState) (oracle : FetchOutcome) :
    (Option JValue × Option String) × Bool :=
  if !st.enabled then
    ((none, some st.status_msg), false)
  else if (st.provider == "openai" || st.provider == "azure") && st.hasClient then
    match oracle with
    | .parsed v => ((some v, none), true)
    | .raised e => ((none, some e), true)
  else if st.provider == "gemini" then
    match oracle with
    | .parsed v => ((some v, none), true)
    | .raised e => ((none, some e), true)
  else if st.provider == "bedrock" && st.hasBedrockClient then
    match oracle with
    | .parsed v => ((some v, none), true)
    | .raised e => ((none, some e), true)
  else
    ((none, some ("Unsupported provider or client not initialized: " ++ st.provider)), false)

/-! ## The chat handler -/

/-- Truthiness of the fetched plan as tested by `if ai_plan:`. -/
def optJTruthy : Option JValue → Bool
  | none => false
  | some v => pyTruthy v

/-- Truthiness of the error string as tested by `if ai_error:`. -/
def optStrTruthy : Option String → Bool
  | none => false
  | some s => s != ""

/-- The annotation lines appended to the reply by the chat handler:
an "AI fallback reason" line when an error was recorded and AI content
was not used, an "AI warning" line when an error was recorded and AI
content was used, nothing otherwise. -/
def annotationLines (ai_error : Option String) (ai_used : Bool) : List JValue :=
  match ai_error with
  | some e =>
    if e != "" then
      if !ai_used then [.str ("AI fallback reason: " ++ e)]
      else [.str ("AI warning: " ++ e)]
    else []
  | none => []

/-- The JSON response assembled by the `/chat` handler, together with two
observables used by the spec: whether `_call_ai_plan` was invoked and
whether a provider branch inside it was entered. -/
structure ChatResponse where
  plan : NPlan
  reply : List JValue
  ai_enabled : Bool
  provider : String
  model : String
  status : String
  mode_requested : String
  mode_used : String
  ai_error : Option String
  ai_used : Bool
  fetcher_called : Bool
  provider_called : Bool

/-- Embedding of the `/chat` handler body, parametric in the fetch
result: the static fallback plan is always computed; only when
`mode == "hybrid"` is the fetcher consulted (`fetcher_called` mirrors
the call site); a truthy fetched plan is normalized (an exception from
the normalizer propagates out of the handler) and marks `ai_used`;
otherwise the static plan stands.  Document rendering performs no plan
computation and is treated as an external collaborator. -/
def chat_with_fetch (fetchRes : (Option JValue × Option String) × Bool)
    (message : String) (filename : Option String) (mode : String) :
    Except PyErr ChatResponse :=
  let plan0 := fallback_plan message filename
  let isHybrid := mode == "hybrid"
  let step : Except PyErr (NPlan × Option String × Bool) :=
    if isHybrid then
      let ai_plan := fetchRes.1.1
      let ai_error := fetchRes.1.2
      if optJTruthy ai_plan then
        match normalize_plan (ai_plan.getD .null) message with
        | .error e => .error e
        | .ok p => .ok (p, ai_error, true)
      else
        .ok (plan0, ai_error, false)
    else
      .ok (plan0, none, false)
  match step with
  | .error e => .error e
  | .ok (plan, ai_error, ai_used) =>
    .ok { plan := plan
          reply := plan.summary :: annotationLines ai_error ai_used
          ai_enabled := false
          provider := ""
          model := ""
          status := ""
          mode_requested := mode
          mode_used := if ai_used then "hybrid" else "static"
          ai_error := ai_error
          ai_used := ai_used
          fetcher_called := isHybrid
          provider_called := if isHybrid then fetchRes.2 else false }

/-- Embedding of the `/chat` handler for a given provider state and
provider-interaction outcome: the fetch result is produced by
`_call_ai_plan`, and the provider status fields of the response are
filled in from the state. -/
def chat (st : AIState) (oracle : FetchOutcome) (message : String)
    (filename : Option String) (mode : String) : Except PyErr ChatResponse :=
  match chat_with_fetch (call_ai_plan st oracle) message filename mode with
  | .error e => .error e
  | .ok r =>
    .ok { r with ai_enabled := st.enabled, provider := st.provider,
                 model := st.model, status := st.status_msg }

/-! ## Helper lemmas -/

/-- Defaulting with a truthy default always yields a truthy value. -/
theorem pyTruthy_pyOr (o : Option JValue) (d : JValue) (hd : pyTruthy d = true) :
    pyTruthy (pyOr o d) = true := by
  cases o with
  | none => exact hd
  | some x =>
    cases hx : pyTruthy x with
    | true => simp [pyOr, hx]
    | false => simp [pyOr, hx, hd]

/-- Defaulting keeps a truthy present value. -/
theorem pyOr_of_truthy (x : JValue) (d : JValue) (hx : pyTruthy x = true) :
    pyOr (some x) d = x := by
  simp [pyOr, hx]

/-- A string with a fixed non-empty prefix is truthy. -/
theorem pyTruthy_str_append (p m : String) (hp : p.data ≠ []) :
    pyTruthy (.str (p ++ m)) = true := by
  simp only [pyTruthy, bne_iff_ne, ne_eq, decide_eq_true_eq]
  intro hcontra
  apply hp
  have hdata := congrArg String.data hcontra
  rw [String.data_append] at hdata
  exact (List.append_eq_nil.mp hdata).1

/-- Cleaning a list of strings never raises. -/
theorem cleanList_ok_of_strs (bs : List JValue) (h : bs.all jIsStr = true) :
    ∃ cl, cleanList bs = Except.ok cl := by
  induction bs with
  | nil => exact ⟨[], rfl⟩
  | cons b rest ih =>
    rw [List.all_cons, Bool.and_eq_true] at h
    obtain ⟨cl, hcl⟩ := ih h.2
    cases b with
    | str s =>
      cases hw : (pyStrip (pyStr (.str s)) == "") with
      | true => exact ⟨cl, by simp [cleanList, hw, hcl]⟩
      | false => exact ⟨.str (pyStrip s) :: cl, by simp [cleanList, hw, hcl]⟩
    | null => simp [jIsStr] at h
    | bool b => simp [jIsStr] at h
    | num n => simp [jIsStr] at h
    | arr xs => simp [jIsStr] at h
    | obj fs => simp [jIsStr] at h

/-- Processing a list of shapely sections never raises, and every
resulting section has at least one bullet. -/
theorem processSections_ok_of_shapely (ss : List JValue)
    (h : ss.all sectionShapely = true) :
    ∃ secs, processSections ss = Except.ok secs ∧
      secs.all (fun s => !s.bullets.isEmpty) = true := by
  induction ss with
  | nil => exact ⟨[], rfl, rfl⟩
  | cons sec rest ih =>
    rw [List.all_cons, Bool.and_eq_true] at h
    obtain ⟨tl, htl, htlb⟩ := ih h.2
    have hs := h.1
    cases sec with
    | obj sfs =>
      have hs' : (match dictGet sfs "bullets" with
          | none => true
          | some v => strListOk v) = true := by
        simpa [sectionShapely] using hs
      have hbul : ∃ bitems : List JValue,
          pyIter ((dictGet sfs "bullets").getD (.arr [])) = .ok bitems ∧
          bitems.all jIsStr = true := by
        cases hb : dictGet sfs "bullets" with
        | none => exact ⟨[], by simp [hb, pyIter], rfl⟩
        | some v =>
          rw [hb] at hs'
          cases v with
          | arr xs => exact ⟨xs, by simp [hb, pyIter], by simpa [strListOk] using hs'⟩
          | null => simp [strListOk] at hs'
          | bool b => simp [strListOk] at hs'
          | num n => simp [strListOk] at hs'
          | str s => simp [strListOk] at hs'
          | obj fs => simp [strListOk] at hs'
      obtain ⟨bitems, hbi, hbstr⟩ := hbul
      obtain ⟨cl, hcl⟩ := cleanList_ok_of_strs bitems hbstr
      refine ⟨⟨pyOr (dictGet sfs "heading") (.str "Section"),
               if cl.isEmpty then [JValue.str "Details pending."] else cl⟩ :: tl, ?_, ?_⟩
      · simp only [processSections, hbi, hcl, htl]
      · rw [List.all_cons, Bool.and_eq_true]
        refine ⟨?_, htlb⟩
        cases hce : cl.isEmpty with
        | true => simp [hce]
        | false => simp [hce]
    | null => simp [sectionShapely] at hs
    | bool b => simp [sectionShapely] at hs
    | num n => simp [sectionShapely] at hs
    | str s => simp [sectionShapely] at hs
    | arr xs => simp [sectionShapely] at hs

/-- Behaviour of the chat handler for any mode other than exactly
"hybrid": the static plan, no fetch, no error. -/
theorem chat_nonhybrid (st : AIState) (oracle : FetchOutcome) (m : String)
    (f : Option String) (mode : String) (h : (mode == "hybrid") = false) :
    chat st oracle m f mode = .ok
      { plan := fallback_plan m f
        reply := [(fallback_plan m f).summary]
        ai_enabled := st.enabled, provider := st.provider, model := st.model
        status := st.status_msg, mode_requested := mode, mode_used := "static"
        ai_error := none, ai_used := false
        fetcher_called := false, provider_called := false } := by
  simp [chat, chat_with_fetch, h, annotationLines]

/-- Behaviour of the chat handler in hybrid mode when the fetched plan is
falsy (absent, null, or an empty container): the static plan stands and
the fetch error is recorded. -/
theorem chat_with_fetch_falsy (pv : Option JValue) (err : Option String)
    (pc : Bool) (m : String) (f : Option String) (h : optJTruthy pv = false) :
    chat_with_fetch ((pv, err), pc) m f "hybrid" = .ok
      { plan := fallback_plan m f
        reply := (fallback_plan m f).summary :: annotationLines err false
        ai_enabled := false, provider := "", model := ""
        status := "", mode_requested := "hybrid", mode_used := "static"
        ai_error := err, ai_used := false
        fetcher_called := true, provider_called := pc } := by
  simp [chat_with_fetch, h]

/-- Behaviour of the chat handler in hybrid mode when the fetched plan is
truthy and normalizes successfully: the normalized plan is used and
ai_used is set. -/
theorem chat_with_fetch_truthy (v : JValue) (err : Option String)
    (pc : Bool) (m : String) (f : Option String) (p : NPlan)
    (hv : pyTruthy v = true) (hn : normalize_plan v m = .ok p) :
    chat_with_fetch ((some v, err), pc) m f "hybrid" = .ok
      { plan := p
        reply := p.summary :: annotationLines err true
        ai_enabled := false, provider := "", model := ""
        status := "", mode_requested := "hybrid", mode_used := "hybrid"
        ai_error := err, ai_used := true
        fetcher_called := true, provider_called := pc } := by
  simp [chat_with_fetch, optJTruthy, hv, hn]

/-- With the registry disabled, the fetcher returns the status message
immediately and no provider branch is entered. -/
theorem call_ai_plan_disabled (st : AIState) (oracle : FetchOutcome)
    (h : st.enabled = false) :
    call_ai_plan st oracle = ((none, some st.status_msg), false) := by
  simp [call_ai_plan, h]

/-- The fetcher never returns both a plan and an error: one component of
the pair is always None. -/
theorem call_ai_plan_exclusive (st : AIState) (oracle : FetchOutcome) :
    (call_ai_plan st oracle).1.1 = none ∨ (call_ai_plan st oracle).1.2 = none := by
  cases oracle with
  | parsed v =>
    unfold call_ai_plan
    split
    · exact .inl rfl
    · split
      · exact .inr rfl
      · split
        · exact .inr rfl
        · split
          · exact .inr rfl
          · exact .inl rfl
  | raised e =>
    unfold call_ai_plan
    split
    · exact .inl rfl
    · split
      · exact .inl rfl
      · split
        · exact .inl rfl
        · split
          · exact .inl rfl
          · exact .inl rfl

/-- Cleaning a list of trimmed non-empty strings returns it unchanged. -/
theorem cleanList_canonical (bs : List JValue) (h : bs.all trimmedStr = true) :
    cleanList bs = .ok bs := by
  induction bs with
  | nil => rfl
  | cons b rest ih =>
    rw [List.all_cons, Bool.and_eq_true] at h
    have htl := ih h.2
    have hb := h.1
    cases b with
    | str s =>
      rw [trimmedStr, Bool.and_eq_true, beq_iff_eq, bne_iff_ne] at hb
      have hcond : (pyStrip (pyStr (.str s)) == "") = false := by
        show (pyStrip s == "") = false
        rw [hb.1]
        exact beq_eq_false_iff_ne.mpr hb.2
      simp [cleanList, hcond, htl, hb.1]
    | null => simp [trimmedStr] at hb
    | bool b => simp [trimmedStr] at hb
    | num n => simp [trimmedStr] at hb
    | arr xs => simp [trimmedStr] at hb
    | obj fs => simp [trimmedStr] at hb

/-- Processing the serialization of canonical sections returns them
unchanged. -/
theorem processSections_canonical (l : List NSection)
    (h : l.all (fun s =>
      pyTruthy s.heading && !s.bullets.isEmpty && s.bullets.all trimmedStr) = true) :
    processSections (l.map sectionToJValue) = .ok l := by
  induction l with
  | nil => rfl
  | cons s rest ih =>
    rw [List.all_cons, Bool.and_eq_true] at h
    obtain ⟨hhead, hrest⟩ := h
    rw [Bool.and_eq_true, Bool.and_eq_true] at hhead
    obtain ⟨⟨h1, h2⟩, h3⟩ := hhead
    have htl := ih hrest
    have hd1 : dictGet [("heading", s.heading), ("bullets", JValue.arr s.bullets)]
        "heading" = some s.heading := rfl
    have hd2 : dictGet [("heading", s.heading), ("bullets", JValue.arr s.bullets)]
        "bullets" = some (JValue.arr s.bullets) := rfl
    rw [Bool.not_eq_eq_eq_not, Bool.not_true] at h2
    simp only [List.map_cons, sectionToJValue, processSections, hd1, hd2,
      Option.getD, pyIter, cleanList_canonical s.bullets h3, htl, h2,
      pyOr_of_truthy s.heading _ h1]
    rfl

/-- Normalizing the serialization of a canonical plan returns it
unchanged. -/
theorem normalize_idempotent_on_canonical (q : NPlan) (m : String)
    (h : planCanonical q = true) :
    normalize_plan (planToJValue q) m = .ok q := by
  rw [planCanonical] at h
  repeat rw [Bool.and_eq_true] at h
  obtain ⟨⟨⟨⟨⟨⟨ht, hs⟩, hc⟩, hsecne⟩, hsecall⟩, hclne⟩, hclall⟩ := h
  have hd1 : dictGet [("title", q.title), ("summary", q.summary),
      ("sections", .arr (q.sections.map sectionToJValue)),
      ("claims", .arr q.claims), ("certificate_note", q.certificate_note)]
      "title" = some q.title := rfl
  have hd2 : dictGet [("title", q.title), ("summary", q.summary),
      ("sections", .arr (q.sections.map sectionToJValue)),
      ("claims", .arr q.claims), ("certificate_note", q.certificate_note)]
      "summary" = some q.summary := rfl
  have hd3 : dictGet [("title", q.title), ("summary", q.summary),
      ("sections", .arr (q.sections.map sectionToJValue)),
      ("claims", .arr q.claims), ("certificate_note", q.certificate_note)]
      "sections" = some (.arr (q.sections.map sectionToJValue)) := rfl
  have hd4 : dictGet [("title", q.title), ("summary", q.summary),
      ("sections", .arr (q.sections.map sectionToJValue)),
      ("claims", .arr q.claims), ("certificate_note", q.certificate_note)]
      "claims" = some (.arr q.claims) := rfl
  have hd5 : dictGet [("title", q.title), ("summary", q.summary),
      ("sections", .arr (q.sections.map sectionToJValue)),
      ("claims", .arr q.claims), ("certificate_note", q.certificate_note)]
      "certificate_note" = some q.certificate_note := rfl
  have hsecne' : (q.sections.map sectionToJValue).isEmpty = false := by
    rw [Bool.not_eq_eq_eq_not, Bool.not_true] at hsecne
    cases hq : q.sections with
    | nil => rw [hq] at hsecne; simp at hsecne
    | cons a l => simp
  have hsece : q.sections.isEmpty = false := by
    rw [Bool.not_eq_eq_eq_not, Bool.not_true] at hsecne
    exact hsecne
  have hcle : q.claims.isEmpty = false := by
    rw [Bool.not_eq_eq_eq_not, Bool.not_true] at hclne
    exact hclne
  simp only [planToJValue, normalize_plan, hd1, hd2, hd3, hd4, hd5,
    Option.getD, pyIter, processSections_canonical q.sections hsecall,
    cleanList_canonical q.claims hclall, hsece, hcle,
    pyOr_of_truthy q.title _ ht, pyOr_of_truthy q.summary _ hs,
    pyOr_of_truthy q.certificate_note _ hc]
  rfl

/-! ## Observations on normalizer results -/

/-- Whether a normalizer run succeeded with a plan satisfying the
DocumentationPlan invariants. -/
def invariantOk : Except PyErr NPlan → Bool
  | .ok r => planInvariant r
  | .error _ => false

/-- Headings of the sections of a successful normalizer run. -/
def okHeadings : Except PyErr NPlan → Option (List JValue)
  | .ok r => some (r.sections.map (fun s => s.heading))
  | .error _ => none

/-- Bullet lists of the sections of a successful normalizer run. -/
def okBulletLists : Except PyErr NPlan → Option (List (List JValue))
  | .ok r => some (r.sections.map (fun s => s.bullets))
  | .error _ => none

/-! ## Claim theorems: the normalizer -/

/-- C1 (counterexample): the normalizer is not total.  On None, on a
non-object JSON value, and on an object whose sections list holds a
non-object entry, `_normalize_plan` raises (AttributeError), contradicting
the claim that it raises no exception for every input including None. -/
theorem normalize_none_raises :
    normalize_plan .null "m" = .error (pyErrNoAttr .null "get") ∧
    normalize_plan (.str "plan") "m" = .error (pyErrNoAttr (.str "plan") "get") ∧
    normalize_plan (.obj [("sections", .arr [.num 3])]) "m"
      = .error (pyErrNoAttr (.num 3) "get") :=
  ⟨rfl, rfl, rfl⟩

/-- C1 (amended): on every input that is a JSON object whose sections
value, when present, is a list of objects with string-list bullets, and
whose claims value, when present, is a list of strings, the normalizer
raises no exception and its result satisfies the DocumentationPlan
invariants (truthy title, summary and certificate note, at least one
section, at least one bullet per section, at least one claim). -/
theorem normalize_total_on_shapely (plan : JValue) (m : String)
    (h : planShapely plan = true) :
    invariantOk (normalize_plan plan m) = true := by
  cases plan with
  | obj fs =>
    rw [planShapely, Bool.and_eq_true] at h
    obtain ⟨hsec, hcl⟩ := h
    have hsecs : ∃ ss : List JValue,
        pyIter ((dictGet fs "sections").getD (.arr [])) = .ok ss ∧
        ss.all sectionShapely = true := by
      cases hb : dictGet fs "sections" with
      | none => exact ⟨[], by simp [hb, pyIter], rfl⟩
      | some v =>
        rw [hb] at hsec
        cases v with
        | arr ss => exact ⟨ss, by simp [hb, pyIter], hsec⟩
        | null => simp at hsec
        | bool b => simp at hsec
        | num n => simp at hsec
        | str s => simp at hsec
        | obj g => simp at hsec
    obtain ⟨ss, hssiter, hssshape⟩ := hsecs
    obtain ⟨secs, hsecseq, hsecsball⟩ := processSections_ok_of_shapely ss hssshape
    have hclaims : ∃ cs : List JValue,
        pyIter ((dictGet fs "claims").getD (.arr [])) = .ok cs ∧
        cs.all jIsStr = true := by
      cases hb : dictGet fs "claims" with
      | none => exact ⟨[], by simp [hb, pyIter], rfl⟩
      | some v =>
        rw [hb] at hcl
        cases v with
        | arr cs => exact ⟨cs, by simp [hb, pyIter], by simpa [strListOk] using hcl⟩
        | null => simp [strListOk] at hcl
        | bool b => simp [strListOk] at hcl
        | num n => simp [strListOk] at hcl
        | str s => simp [strListOk] at hcl
        | obj g => simp [strListOk] at hcl
    obtain ⟨cs, hcsiter, hcsstr⟩ := hclaims
    obtain ⟨cl, hclean⟩ := cleanList_ok_of_strs cs hcsstr
    simp only [normalize_plan, hssiter, hsecseq, hcsiter, hclean, invariantOk]
    rw [planInvariant]
    repeat rw [Bool.and_eq_true]
    refine ⟨⟨⟨⟨⟨?_, ?_⟩, ?_⟩, ?_⟩, ?_⟩, ?_⟩
    · exact pyTruthy_pyOr _ _ (by decide)
    · exact pyTruthy_pyOr _ _
        (pyTruthy_str_append "Generated documentation for: " m (by decide))
    · cases hse : secs.isEmpty with
      | true => simp [hse]
      | false => simp [hse]
    · cases hse : secs.isEmpty with
      | true => simp [hse]
      | false => simpa [hse] using hsecsball
    · cases hce : cl.isEmpty with
      | true => simp [hce]
      | false => simp [hce]
    · exact pyTruthy_pyOr _ _ (by decide)
  | null => simp [planShapely] at h
  | bool b => simp [planShapely] at h
  | num n => simp [planShapely] at h
  | str s => simp [planShapely] at h
  | arr xs => simp [planShapely] at h

/-- C1 (witness): the amended totality theorem applied to the empty
object. -/
theorem normalize_total_on_shapely_witness :
    planShapely (.obj []) = true ∧
    invariantOk (normalize_plan (.obj []) "m") = true :=
  ⟨rfl, normalize_total_on_shapely (.obj []) "m" rfl⟩

/-- C3 (counterexample): a section whose only bullet is whitespace is NOT
removed from the sections list.  Its whitespace bullet is dropped, but the
section is retained under its own heading with the default bullet; were it
removed, the cleaned sections list would be empty and the result would be
a single synthesized "Overview" section instead. -/
theorem whitespace_section_retained_cex :
    okHeadings (normalize_plan
      (.obj [("sections", .arr [.obj [("heading", .str "Empty"),
        ("bullets", .arr [.str "   "])]])]) "m") = some [.str "Empty"] ∧
    okBulletLists (normalize_plan
      (.obj [("sections", .arr [.obj [("heading", .str "Empty"),
        ("bullets", .arr [.str "   "])]])]) "m")
      = some [[.str "Details pending."]] :=
  ⟨rfl, rfl⟩

/-- C3 (amended): bullets containing only whitespace are dropped from a
section's bullet list, and a section whose bullet list becomes empty
after this cleaning is retained in the sections list with the default
bullet list ["Details pending."], not removed. -/
theorem whitespace_bullets_dropped_section_retained :
    (∀ s rest, pyStrip s = "" →
      cleanList (.str s :: rest) = cleanList rest)
    ∧ (∀ h bs rest tl, cleanList bs = .ok [] → processSections rest = .ok tl →
        processSections (.obj [("heading", h), ("bullets", .arr bs)] :: rest)
          = .ok (⟨pyOr (some h) (.str "Section"),
                 [.str "Details pending."]⟩ :: tl)) := by
  constructor
  · intro s rest hs
    have hcond : (pyStrip (pyStr (.str s)) == "") = true := by
      show (pyStrip s == "") = true
      rw [hs]
      rfl
    simp [cleanList, hcond]
  · intro h bs rest tl hcl htl
    have hd2 : dictGet [("heading", h), ("bullets", JValue.arr bs)]
        "bullets" = some (JValue.arr bs) := rfl
    simp only [processSections, hd2, Option.getD, pyIter, hcl, htl,
      List.isEmpty_nil]
    rfl

/-- C3 (witness): the amended theorem applied to a section with a single
whitespace bullet. -/
theorem whitespace_bullets_dropped_section_retained_witness :
    cleanList [.str " ", .str "keep"] = cleanList [.str "keep"] ∧
    processSections [.obj [("heading", .str "H"), ("bullets", .arr [.str " "])]]
      = .ok [⟨pyOr (some (.str "H")) (.str "Section"), [.str "Details pending."]⟩] :=
  ⟨whitespace_bullets_dropped_section_retained.1 " " [.str "keep"] rfl,
   whitespace_bullets_dropped_section_retained.2 (.str "H") [.str " "] [] [] rfl rfl⟩

/-- C4 (code evaluation at the failing input): a non-string bullet or
claim entry is not coerced to a string; the normalizer raises
AttributeError at `.strip()` instead (the guard coerces with `str(b)` but
the comprehension body calls `b.strip()` on the original value). -/
theorem nonstring_entries_raise :
    normalize_plan (.obj [("sections", .arr [.obj [("heading", .str "H"),
        ("bullets", .arr [.num 7])]])]) "m"
      = .error (pyErrNoAttr (.num 7) "strip") ∧
    normalize_plan (.obj [("claims", .arr [.num 7])]) "m"
      = .error (pyErrNoAttr (.num 7) "strip") :=
  ⟨rfl, rfl⟩

/-- C8 (counterexample): normalization is not the identity on every plan
satisfying the DocumentationPlan invariants.  A valid plan whose bullet
carries surrounding whitespace is returned with the bullet stripped, so
the output differs from the input. -/
theorem normalize_strips_valid_plan_cex :
    planInvariant ⟨.str "T", .str "S", [⟨.str "H", [.str " x "]⟩],
      [.str "C"], .str "N"⟩ = true ∧
    normalize_plan (planToJValue ⟨.str "T", .str "S", [⟨.str "H", [.str " x "]⟩],
      [.str "C"], .str "N"⟩) "seed"
      = .ok ⟨.str "T", .str "S", [⟨.str "H", [.str "x"]⟩], [.str "C"], .str "N"⟩ ∧
    normalize_plan (planToJValue ⟨.str "T", .str "S", [⟨.str "H", [.str " x "]⟩],
      [.str "C"], .str "N"⟩) "seed"
      ≠ .ok ⟨.str "T", .str "S", [⟨.str "H", [.str " x "]⟩], [.str "C"], .str "N"⟩ := by
  refine ⟨rfl, rfl, ?_⟩
  intro hcontra
  rw [show normalize_plan (planToJValue ⟨.str "T", .str "S",
      [⟨.str "H", [.str " x "]⟩], [.str "C"], .str "N"⟩) "seed"
      = .ok ⟨.str "T", .str "S", [⟨.str "H", [.str "x"]⟩], [.str "C"], .str "N"⟩
      from rfl] at hcontra
  injection hcontra with h1
  injection h1 with ht hs hsec hcl hcert
  injection hsec with hhd htl
  injection hhd with hh hb
  injection hb with hb1 hb2
  injection hb1 with hstr
  exact absurd hstr (by decide)

/-- C8 (witness): idempotence applied to a concrete canonical plan. -/
theorem normalize_idempotent_on_canonical_witness :
    planCanonical ⟨.str "T", .str "S", [⟨.str "H", [.str "x"]⟩],
      [.str "C"], .str "N"⟩ = true ∧
    normalize_plan (planToJValue ⟨.str "T", .str "S", [⟨.str "H", [.str "x"]⟩],
      [.str "C"], .str "N"⟩) "seed"
      = .ok ⟨.str "T", .str "S", [⟨.str "H", [.str "x"]⟩], [.str "C"], .str "N"⟩ :=
  ⟨rfl, normalize_idempotent_on_canonical
    ⟨.str "T", .str "S", [⟨.str "H", [.str "x"]⟩], [.str "C"], .str "N"⟩ "seed" rfl⟩

/-- C9: the normalizer defaults.  A section with a falsy heading gets
heading "Section"; a section whose bullets clean to the empty list gets
bullets ["Details pending."]; and when the processed sections list is
empty the successful result has exactly one section, "Overview", whose
sole bullet is the resolved summary. -/
theorem normalize_section_defaults :
    (∀ h bs rest cl tl, pyTruthy h = false →
        cleanList bs = .ok cl → processSections rest = .ok tl →
        processSections (.obj [("heading", h), ("bullets", .arr bs)] :: rest)
          = .ok (⟨.str "Section",
                 if cl.isEmpty then [.str "Details pending."] else cl⟩ :: tl))
    ∧ (∀ h bs rest tl, cleanList bs = .ok [] → processSections rest = .ok tl →
        processSections (.obj [("heading", h), ("bullets", .arr bs)] :: rest)
          = .ok (⟨pyOr (some h) (.str "Section"),
                 [.str "Details pending."]⟩ :: tl))
    ∧ (∀ fs m r, (dictGet fs "sections" = none ∨
          dictGet fs "sections" = some (.arr [])) →
        normalize_plan (.obj fs) m = .ok r →
        r.sections = [⟨.str "Overview", [r.summary]⟩] ∧
        r.summary = pyOr (dictGet fs "summary")
          (.str ("Generated documentation for: " ++ m))) := by
  refine ⟨?_, ?_, ?_⟩
  · intro h bs rest cl tl hh hcl htl
    have hd1 : dictGet [("heading", h), ("bullets", JValue.arr bs)]
        "heading" = some h := rfl
    have hd2 : dictGet [("heading", h), ("bullets", JValue.arr bs)]
        "bullets" = some (JValue.arr bs) := rfl
    simp only [processSections, hd1, hd2, Option.getD, pyIter, hcl, htl,
      pyOr, hh, Bool.false_eq_true, if_false]
  · intro h bs rest tl hcl htl
    have hd2 : dictGet [("heading", h), ("bullets", JValue.arr bs)]
        "bullets" = some (JValue.arr bs) := rfl
    simp only [processSections, hd2, Option.getD, pyIter, hcl, htl,
      List.isEmpty_nil]
    rfl
  · intro fs m r hsec hok
    have hiter : pyIter ((dictGet fs "sections").getD (.arr [])) = .ok [] := by
      rcases hsec with hb | hb <;> simp [hb, pyIter]
    rw [normalize_plan, hiter] at hok
    simp only [processSections, List.isEmpty_nil, if_true] at hok
    split at hok
    · cases hok
    · split at hok
      · cases hok
      · injection hok with hok
        subst hok
        exact ⟨rfl, rfl⟩

/-- C9 (witness): the defaults theorem applied to concrete inputs: a
falsy heading, an all-whitespace bullets list, and an input with an empty
sections list. -/
theorem normalize_section_defaults_witness :
    processSections [.obj [("heading", .str ""), ("bullets", .arr [.str "b"])]]
      = .ok [⟨.str "Section", [.str "b"]⟩] ∧
    processSections [.obj [("heading", .str "H"), ("bullets", .arr [])]]
      = .ok [⟨pyOr (some (.str "H")) (.str "Section"), [.str "Details pending."]⟩] ∧
    ((fun (r : NPlan) => r.sections = [⟨.str "Overview", [r.summary]⟩] ∧
        r.summary = pyOr (dictGet [("summary", JValue.str "S")] "summary")
          (.str ("Generated documentation for: " ++ "m")))
      ⟨.str "ASTHRA Project Documentation", .str "S",
       [⟨.str "Overview", [.str "S"]⟩],
       [.str "Automated documentation generation based on user input."],
       .str "Generated via ASTHRA."⟩) :=
  ⟨by
    have := normalize_section_defaults.1 (.str "") [.str "b"] [] [.str "b"] []
      rfl rfl rfl
    simpa using this,
   normalize_section_defaults.2.1 (.str "H") [] [] [] rfl rfl,
   normalize_section_defaults.2.2 [("summary", JValue.str "S")] "m"
     ⟨.str "ASTHRA Project Documentation", .str "S",
      [⟨.str "Overview", [.str "S"]⟩],
      [.str "Automated documentation generation based on user input."],
      .str "Generated via ASTHRA."⟩ (.inl rfl) rfl⟩

/-! ## Claim theorems: the fetcher and the chat handler -/

/-- Helper: lifting a successful parametric handler run to the full
handler, filling in the provider status fields. -/
theorem chat_ok_of_with_fetch (st : AIState) (oracle : FetchOutcome)
    (m : String) (f : Option String) (mode : String) (r0 : ChatResponse)
    (h : chat_with_fetch (call_ai_plan st oracle) m f mode = .ok r0) :
    chat st oracle m f mode = .ok { r0 with
      ai_enabled := st.enabled
      provider := st.provider
      model := st.model
      status := st.status_msg } := by
  unfold chat
  rw [h]

/-- A provider state with the registry disabled (no credentials). -/
def stDisabled : AIState :=
  ⟨false, "auto", "gpt-4o-mini",
   "No AI credentials found; running in static mode", false, false⟩

/-- A provider state with OpenAI selected and ready. -/
def stOpenAI : AIState :=
  ⟨true, "openai", "gpt-4o-mini", "OpenAI ready", true, false⟩

/-- C6: on any failure of the provider interaction (network error,
non-2xx response, malformed JSON, missing SDK — all surfacing as an
exception inside the try block), an enabled fetcher that dispatches to a
provider branch catches the failure and returns (None, stringified
error); no exception propagates (the embedding is a total function). -/
theorem call_ai_plan_catches_failures (st : AIState) (e : String)
    (hen : st.enabled = true) (hdisp : providerDispatch st = true) :
    call_ai_plan st (.raised e) = ((none, some e), true) := by
  simp only [providerDispatch, Bool.or_eq_true, Bool.and_eq_true,
    beq_iff_eq] at hdisp
  rcases hdisp with (⟨hpa, hcl⟩ | hg) | ⟨hb, hbc⟩
  · rcases hpa with hp | hp <;> simp [call_ai_plan, hen, hcl, hp]
  · simp [call_ai_plan, hen, hg]
  · simp [call_ai_plan, hen, hb, hbc]

/-- C6 (witness): a raised provider failure at a ready OpenAI state. -/
theorem call_ai_plan_catches_failures_witness :
    stOpenAI.enabled = true ∧ providerDispatch stOpenAI = true ∧
    call_ai_plan stOpenAI (.raised "boom") = ((none, some "boom"), true) :=
  ⟨rfl, rfl, call_ai_plan_catches_failures stOpenAI "boom" rfl rfl⟩

/-- C5: the mode contract.  In static mode the handler never invokes the
fetcher (and hence no provider call happens); with the registry disabled
the fetcher returns the disabled status message immediately with no
provider branch entered, and a hybrid request falls back to the static
plan recording that message as the error. -/
theorem mode_contract_static_and_disabled :
    (∀ st oracle m f r, chat st oracle m f "static" = .ok r →
        r.fetcher_called = false ∧ r.provider_called = false)
    ∧ (∀ st oracle, st.enabled = false →
        call_ai_plan st oracle = ((none, some st.status_msg), false))
    ∧ (∀ st oracle m f r, st.enabled = false →
        chat st oracle m f "hybrid" = .ok r →
        r.plan = fallback_plan m f ∧ r.ai_error = some st.status_msg ∧
        r.mode_used = "static" ∧ r.provider_called = false) := by
  refine ⟨?_, call_ai_plan_disabled, ?_⟩
  · intro st oracle m f r h
    rw [chat_nonhybrid st oracle m f "static" rfl] at h
    injection h with h
    subst h
    exact ⟨rfl, rfl⟩
  · intro st oracle m f r hen h
    have hcw : chat_with_fetch (call_ai_plan st oracle) m f "hybrid"
        = .ok { plan := fallback_plan m f
                reply := (fallback_plan m f).summary
                  :: annotationLines (some st.status_msg) false
                ai_enabled := false, provider := "", model := ""
                status := "", mode_requested := "hybrid", mode_used := "static"
                ai_error := some st.status_msg, ai_used := false
                fetcher_called := true, provider_called := false } := by
      rw [call_ai_plan_disabled st oracle hen]
      exact chat_with_fetch_falsy none (some st.status_msg) false m f rfl
    rw [chat_ok_of_with_fetch st oracle m f "hybrid" _ hcw] at h
    injection h with h
    subst h
    exact ⟨rfl, rfl, rfl, rfl⟩

/-- The static-mode response of the disabled state (used by the C5
witness). -/
def respStaticMode : ChatResponse :=
  { plan := fallback_plan "m" none
    reply := [(fallback_plan "m" none).summary]
    ai_enabled := false, provider := "auto", model := "gpt-4o-mini"
    status := "No AI credentials found; running in static mode"
    mode_requested := "static", mode_used := "static"
    ai_error := none, ai_used := false
    fetcher_called := false, provider_called := false }

/-- The hybrid-mode response of the disabled state (used by the C5
witness). -/
def respDisabledHybrid : ChatResponse :=
  { plan := fallback_plan "m" none
    reply := [(fallback_plan "m" none).summary,
      .str "AI fallback reason: No AI credentials found; running in static mode"]
    ai_enabled := false, provider := "auto", model := "gpt-4o-mini"
    status := "No AI credentials found; running in static mode"
    mode_requested := "hybrid", mode_used := "static"
    ai_error := some "No AI credentials found; running in static mode"
    ai_used := false, fetcher_called := true, provider_called := false }

/-- C5 (witness): the mode contract applied to the disabled state. -/
theorem mode_contract_static_and_disabled_witness :
    (chat stDisabled (.parsed .null) "m" none "static" = .ok respStaticMode) ∧
    (respStaticMode.fetcher_called = false ∧
     respStaticMode.provider_called = false) ∧
    (call_ai_plan stDisabled (.parsed .null)
      = ((none, some stDisabled.status_msg), false)) ∧
    (chat stDisabled (.parsed .null) "m" none "hybrid" = .ok respDisabledHybrid) ∧
    (respDisabledHybrid.plan = fallback_plan "m" none ∧
     respDisabledHybrid.ai_error = some stDisabled.status_msg ∧
     respDisabledHybrid.mode_used = "static" ∧
     respDisabledHybrid.provider_called = false) :=
  ⟨rfl,
   mode_contract_static_and_disabled.1 stDisabled (.parsed .null) "m" none
     respStaticMode rfl,
   mode_contract_static_and_disabled.2.1 stDisabled (.parsed .null) rfl,
   rfl,
   mode_contract_static_and_disabled.2.2 stDisabled (.parsed .null) "m" none
     respDisabledHybrid rfl rfl⟩

/-- C10: for any submitted mode other than exactly "hybrid" (a different
case, the empty string, or an arbitrary value), the handler behaves as
static mode: the fetcher is never called, mode_used is "static", the
error is null, the plan is the static plan — while mode_requested echoes
the raw submitted string unvalidated. -/
theorem nonhybrid_mode_acts_static (st : AIState) (oracle : FetchOutcome)
    (m : String) (f : Option String) (mode : String) (h : mode ≠ "hybrid") :
    chat st oracle m f mode = .ok
      { plan := fallback_plan m f
        reply := [(fallback_plan m f).summary]
        ai_enabled := st.enabled, provider := st.provider, model := st.model
        status := st.status_msg, mode_requested := mode, mode_used := "static"
        ai_error := none, ai_used := false
        fetcher_called := false, provider_called := false } :=
  chat_nonhybrid st oracle m f mode (beq_eq_false_iff_ne.mpr h)

/-- C10 (witness): the uppercase mode string "HYBRID" is treated as
static while being echoed back verbatim. -/
theorem nonhybrid_mode_acts_static_witness :
    ("HYBRID" : String) ≠ "hybrid" ∧
    chat stOpenAI (.parsed (.obj [("title", .str "T")])) "m" none "HYBRID"
      = .ok { plan := fallback_plan "m" none
              reply := [(fallback_plan "m" none).summary]
              ai_enabled := true, provider := "openai", model := "gpt-4o-mini"
              status := "OpenAI ready", mode_requested := "HYBRID"
              mode_used := "static", ai_error := none, ai_used := false
              fetcher_called := false, provider_called := false } :=
  ⟨by decide,
   nonhybrid_mode_acts_static stOpenAI (.parsed (.obj [("title", .str "T")]))
     "m" none "HYBRID" (by decide)⟩

/-- C2 (counterexample): in hybrid mode a fetch that returns the
non-null JSON object \x7b\x7d is NOT normalized and does not set ai_used:
`if ai_plan:` tests truthiness, and the empty dict is falsy, so the
static plan stands with a null error. -/
theorem hybrid_empty_object_not_used_cex :
    chat stOpenAI (.parsed (.obj [])) "m" none "hybrid"
      = .ok { plan := fallback_plan "m" none
              reply := [(fallback_plan "m" none).summary]
              ai_enabled := true, provider := "openai", model := "gpt-4o-mini"
              status := "OpenAI ready", mode_requested := "hybrid"
              mode_used := "static", ai_error := none, ai_used := false
              fetcher_called := true, provider_called := true } := rfl

/-- C2 (amended): in hybrid mode the handler always calls the fetcher;
if the fetch result is a truthy plan JSON value whose normalization
succeeds, the normalized plan is used and ai_used is set (mode_used
"hybrid"); for any falsy fetch result (None, null, or an empty
container such as the empty object) the result stays the static plan and
the fetch error (possibly null) is recorded. -/
theorem hybrid_fetch_contract :
    (∀ fr m f r, chat_with_fetch fr m f "hybrid" = .ok r →
        r.fetcher_called = true)
    ∧ (∀ v err pc m f p r, pyTruthy v = true → normalize_plan v m = .ok p →
        chat_with_fetch ((some v, err), pc) m f "hybrid" = .ok r →
        r.plan = p ∧ r.ai_used = true ∧ r.mode_used = "hybrid" ∧
        r.ai_error = err)
    ∧ (∀ pv err pc m f r, optJTruthy pv = false →
        chat_with_fetch ((pv, err), pc) m f "hybrid" = .ok r →
        r.plan = fallback_plan m f ∧ r.ai_used = false ∧ r.ai_error = err ∧
        r.mode_used = "static") := by
  refine ⟨?_, ?_, ?_⟩
  · intro fr m f r h
    obtain ⟨⟨pv, err⟩, pc⟩ := fr
    cases hopt : optJTruthy pv with
    | false =>
      rw [chat_with_fetch_falsy pv err pc m f hopt] at h
      injection h with h
      subst h
      rfl
    | true =>
      cases pv with
      | none => simp [optJTruthy] at hopt
      | some v =>
        rcases hn : normalize_plan v m with e | p
        · simp [chat_with_fetch, hopt, hn, Option.getD] at h
        · rw [chat_with_fetch_truthy v err pc m f p hopt hn] at h
          injection h with h
          subst h
          rfl
  · intro v err pc m f p r hv hn h
    rw [chat_with_fetch_truthy v err pc m f p hv hn] at h
    injection h with h
    subst h
    exact ⟨rfl, rfl, rfl, rfl⟩
  · intro pv err pc m f r hpv h
    rw [chat_with_fetch_falsy pv err pc m f hpv] at h
    injection h with h
    subst h
    exact ⟨rfl, rfl, rfl, rfl⟩

/-- The plan the C2 witness fetches. -/
def wPlanIn : JValue := .obj [("title", .str "T")]

/-- Normalization of the C2 witness plan. -/
def wPlanOut : NPlan :=
  ⟨.str "T", .str "Generated documentation for: m",
   [⟨.str "Overview", [.str "Generated documentation for: m"]⟩],
   [.str "Automated documentation generation based on user input."],
   .str "Generated via ASTHRA."⟩

/-- Parametric-handler response for the C2 witness truthy fetch. -/
def respFetchAI : ChatResponse :=
  { plan := wPlanOut
    reply := [wPlanOut.summary]
    ai_enabled := false, provider := "", model := "", status := ""
    mode_requested := "hybrid", mode_used := "hybrid"
    ai_error := none, ai_used := true
    fetcher_called := true, provider_called := true }

/-- Parametric-handler response for the C2 witness failed fetch. -/
def respFetchFalsy : ChatResponse :=
  { plan := fallback_plan "m" none
    reply := [(fallback_plan "m" none).summary, .str "AI fallback reason: boom"]
    ai_enabled := false, provider := "", model := "", status := ""
    mode_requested := "hybrid", mode_used := "static"
    ai_error := some "boom", ai_used := false
    fetcher_called := true, provider_called := false }

/-- C2 (witness): the hybrid contract applied to a truthy fetched plan
and to a failed fetch. -/
theorem hybrid_fetch_contract_witness :
    (chat_with_fetch ((some wPlanIn, none), true) "m" none "hybrid"
      = .ok respFetchAI) ∧
    respFetchAI.fetcher_called = true ∧
    (respFetchAI.plan = wPlanOut ∧ respFetchAI.ai_used = true ∧
     respFetchAI.mode_used = "hybrid" ∧ respFetchAI.ai_error = none) ∧
    (chat_with_fetch ((none, some "boom"), false) "m" none "hybrid"
      = .ok respFetchFalsy) ∧
    (respFetchFalsy.plan = fallback_plan "m" none ∧
     respFetchFalsy.ai_used = false ∧ respFetchFalsy.ai_error = some "boom" ∧
     respFetchFalsy.mode_used = "static") :=
  ⟨rfl,
   hybrid_fetch_contract.1 ((some wPlanIn, none), true) "m" none respFetchAI rfl,
   hybrid_fetch_contract.2.1 wPlanIn none true "m" none wPlanOut respFetchAI
     rfl rfl rfl,
   rfl,
   hybrid_fetch_contract.2.2 none (some "boom") false "m" none respFetchFalsy
     rfl rfl⟩

/-- Helper: on any fetch pair with one None component (which is all
`_call_ai_plan` can produce), a successful handler run never has ai_used
together with an error. -/
theorem chat_with_fetch_exclusive (fr : (Option JValue × Option String) × Bool)
    (hex : fr.1.1 = none ∨ fr.1.2 = none) (m : String) (f : Option String)
    (mode : String) (r : ChatResponse)
    (h : chat_with_fetch fr m f mode = .ok r) :
    r.ai_used = true → r.ai_error = none := by
  obtain ⟨⟨pv, err⟩, pc⟩ := fr
  cases hm : (mode == "hybrid") with
  | false =>
    simp only [chat_with_fetch, hm, Bool.false_eq_true, if_false,
      Except.ok.injEq] at h
    subst h
    intro hx
    cases hx
  | true =>
    have hmode : mode = "hybrid" := eq_of_beq hm
    subst hmode
    cases hopt : optJTruthy pv with
    | false =>
      rw [chat_with_fetch_falsy pv err pc m f hopt] at h
      injection h with h
      subst h
      intro hx
      cases hx
    | true =>
      cases pv with
      | none => simp [optJTruthy] at hopt
      | some v =>
        have herr : err = none := by
          rcases hex with hx | hx
          · cases hx
          · exact hx
        subst herr
        rcases hn : normalize_plan v m with e | p
        · simp [chat_with_fetch, hopt, hn, Option.getD] at h
        · rw [chat_with_fetch_truthy v none pc m f p hopt hn] at h
          injection h with h
          subst h
          intro _
          rfl

/-- C7: ai_used and ai_error are mutually exclusive in every successful
handler execution, so the "AI warning" reply branch is unreachable: the
annotation is always either empty or a single "AI fallback reason" line. -/
theorem ai_used_and_error_exclusive (st : AIState) (oracle : FetchOutcome)
    (m : String) (f : Option String) (mode : String) (r : ChatResponse)
    (h : chat st oracle m f mode = .ok r) :
    (r.ai_used = true → r.ai_error = none) ∧
    (annotationLines r.ai_error r.ai_used = [] ∨
     annotationLines r.ai_error r.ai_used
       = [.str ("AI fallback reason: " ++ r.ai_error.getD "")]) := by
  have hsplit : ∃ r0, chat_with_fetch (call_ai_plan st oracle) m f mode = .ok r0 ∧
      r = { r0 with ai_enabled := st.enabled, provider := st.provider,
                    model := st.model, status := st.status_msg } := by
    revert h
    unfold chat
    cases hcw : chat_with_fetch (call_ai_plan st oracle) m f mode with
    | error e => intro h; cases h
    | ok r0 =>
      intro h
      injection h with h
      exact ⟨r0, rfl, h.symm⟩
  obtain ⟨r0, hcw, hr⟩ := hsplit
  have hme : r0.ai_used = true → r0.ai_error = none :=
    chat_with_fetch_exclusive _ (call_ai_plan_exclusive st oracle) m f mode r0 hcw
  have hu' : r.ai_used = r0.ai_used := by rw [hr]
  have he' : r.ai_error = r0.ai_error := by rw [hr]
  constructor
  · intro hu
    rw [he']
    exact hme (hu' ▸ hu)
  · rw [hu', he']
    cases hu : r0.ai_used with
    | true =>
      rw [hme hu]
      left
      rfl
    | false =>
      cases he : r0.ai_error with
      | none => left; rfl
      | some e =>
        cases hee : (e != "") with
        | true => right; simp [annotationLines, hee]
        | false => left; simp [annotationLines, hee]

/-- Handler response for the C7 witness: a hybrid request whose provider
call raises. -/
def respRaisedHybrid : ChatResponse :=
  { plan := fallback_plan "m" none
    reply := [(fallback_plan "m" none).summary, .str "AI fallback reason: boom"]
    ai_enabled := true, provider := "openai", model := "gpt-4o-mini"
    status := "OpenAI ready", mode_requested := "hybrid", mode_used := "static"
    ai_error := some "boom", ai_used := false
    fetcher_called := true, provider_called := true }

/-- C7 (witness): mutual exclusion at a concrete failing hybrid run. -/
theorem ai_used_and_error_exclusive_witness :
    (chat stOpenAI (.raised "boom") "m" none "hybrid" = .ok respRaisedHybrid) ∧
    ((respRaisedHybrid.ai_used = true → respRaisedHybrid.ai_error = none) ∧
     (annotationLines respRaisedHybrid.ai_error respRaisedHybrid.ai_used = [] ∨
      annotationLines respRaisedHybrid.ai_error respRaisedHybrid.ai_used
        = [.str ("AI fallback reason: "
            ++ respRaisedHybrid.ai_error.getD "")])) :=
  ⟨rfl,
   ai_used_and_error_exclusive stOpenAI (.raised "boom") "m" none "hybrid"
     respRaisedHybrid rfl⟩

end Asthra
